import Mathlib

/-
Verification of the maternal-survey backend server (src/server.js).
The file shallowly embeds the origin admission policy, the route mount
table, the health endpoint, the welcome endpoint and the fatal-fault
lifecycle handlers, and proves the specified properties about them.
-/

namespace MaternalSurvey

/-! ## Origin admission policy (src/server.js lines 18-38) -/

/-- The fixed allow-list, src/server.js lines 18-22. -/
def allowedOrigins : List String :=
  [ "http://localhost:5173"
  , "https://maternal-survey.vercel.app"
  , "https://maternal-survey.vercel.app/" ]

/-- The verbatim text of the admission condition at src/server.js lines
27-28, from the keyword if up to the character before the opening brace of
the then-block. -/
def corsConditionSourceText : String :=
  "if (!origin || allowedOrigins.includes(origin) || \n        allowedOrigins.includes(origin.replace(/\\/$/, ''))"

/-- Net count of opening minus closing parentheses in a piece of source
text. -/
def parenSurplus (s : String) : Int :=
  s.data.foldl (fun d c => if c = '(' then d + 1 else if c = ')' then d - 1 else d) 0

/-- The admission condition at src/server.js lines 27-28 reaches the brace
of its then-block with one parenthesis still open: the parenthesis of the
if is never closed, which JavaScript rejects as a SyntaxError when the
module is loaded. The shipped file therefore installs no admission
predicate at all. The definitions below embed the condition with the one
missing closing parenthesis restored, the only reading consistent with the
rest of the statement and the one the spec documents. -/
theorem cors_if_condition_unclosed : parenSurplus corsConditionSourceText = 1 := by
  decide

/-- Embeds the JavaScript expression origin.replace(slashAtEnd, empty):
the regex matches a single slash at the end of the string, so at most one
trailing slash is removed. -/
def stripOneTrailingSlash (s : String) : String :=
  match s.data.getLast? with
  | some '/' => String.mk s.data.dropLast
  | _ => s

/-- The intended admission predicate of corsOptions.origin, parametrised
by the allow-list (the code closes over allowedOrigins): absent origin,
verbatim member, or member after stripping one trailing slash. This is the
condition of src/server.js lines 27-28 with its unclosed parenthesis
restored; as shipped, that condition does not parse
(see cors_if_condition_unclosed). -/
def isAllowedWith (origins : List String) (origin : Option String) : Bool :=
  match origin with
  | none => true
  | some o => origins.contains o || origins.contains (stripOneTrailingSlash o)

/-- The intended admission predicate of corsOptions.origin (src/server.js
lines 25-33) applied to the fixed allow-list. The shipped callback is a
SyntaxError (see cors_if_condition_unclosed), so this is the predicate the
code evidently means to install, not one the running program has. -/
def is_allowed (origin : Option String) : Bool :=
  isAllowedWith allowedOrigins origin

/-- The corsOptions.origin callback as intended, with the unclosed
parenthesis of its condition restored: on allow it invokes the callback
with (null, true), modelled as Except.ok true; on deny it invokes the
callback with an Error carrying the message, modelled as Except.error. As
shipped the callback never runs: the module fails to load
(see cors_if_condition_unclosed). -/
def corsOptionsOrigin (origin : Option String) : Except String Bool :=
  if is_allowed origin then Except.ok true
  else Except.error "Not allowed by CORS"

/-! ## Route mount table (src/server.js lines 56-60) -/

/-- The route collaborators required at src/server.js lines 50-53. -/
inductive Collaborator where
  | surveyRoutes
  | authRoutes
  | analyticsRoutes
  | responseRoute
deriving DecidableEq, Repr

/-- The app.use registrations, in order (src/server.js lines 56-60). -/
def mounts : List (String × Collaborator) :=
  [ ("/api/v1/responses", Collaborator.surveyRoutes)
  , ("/api/v1/auth", Collaborator.authRoutes)
  , ("/api/v1/analytics", Collaborator.analyticsRoutes)
  , ("/api/v1/adv", Collaborator.analyticsRoutes)
  , ("/api/v1/surveys", Collaborator.responseRoute) ]

/-- Express mount matching for app.use(p, r): the request path equals the
mount prefix, or extends it at a path-segment boundary. -/
def mountMatchesData (p path : List Char) : Bool :=
  path == p || (p ++ ['/']).isPrefixOf path

/-- The mount table over character lists. -/
def mountsData : List (List Char × Collaborator) :=
  mounts.map (fun m => (m.1.data, m.2))

/-- First mount whose prefix matches the request path, as Express resolves
app.use registrations in order. -/
def dispatchData (path : List Char) : Option Collaborator :=
  (mountsData.find? (fun m => mountMatchesData m.1 path)).map Prod.snd

/-- Dispatch of a request path to a route collaborator. -/
def dispatch (path : String) : Option Collaborator :=
  dispatchData path.data

/-! ## Health endpoint (src/server.js lines 63-70) -/

/-- The JSON payload and status code of GET /api/health. -/
structure HealthResponse where
  httpStatus : Nat
  status : String
  database : String
  version : String
  timestamp : String
deriving DecidableEq, Repr

/-- The GET /api/health handler: readyState is the mongoose connection
readiness flag sampled at request time, now the ISO timestamp generated at
request time. -/
def healthHandler (readyState : Nat) (now : String) : HealthResponse :=
  { httpStatus := 200
  , status := "ok"
  , database := if readyState == 1 then "connected" else "disconnected"
  , version := "1.0.0"
  , timestamp := now }

/-! ## Welcome endpoint (src/server.js lines 73-85) -/

/-- An inbound HTTP request, as far as the handlers can observe it. -/
structure Request where
  headers : List (String × String)
  body : String
deriving DecidableEq, Repr

/-- The JSON payload and status code of GET /. -/
structure WelcomeResponse where
  httpStatus : Nat
  message : String
  version : String
  endpoints : List (String × String)
  documentation : String
deriving DecidableEq, Repr

/-- The GET / handler (src/server.js lines 73-85). -/
def welcomeHandler (_req : Request) : WelcomeResponse :=
  { httpStatus := 200
  , message := "Maternal Survey API"
  , version := "1.0.0"
  , endpoints :=
      [ ("survey", "/api/v1/responses")
      , ("auth", "/api/v1/auth")
      , ("analytics", "/api/v1/analytics")
      , ("advanced", "/api/v1/adv") ]
  , documentation := "https://github.com/your-repo/docs" }

/-! ## Process lifecycle guard (src/server.js lines 101-111) -/

/-- Observable process-level effects of the fatal-fault handlers. -/
inductive Event where
  | log (msg : String)
  | closeServer
  | exitProcess (code : Nat)
deriving DecidableEq, Repr

/-- A trace of observable effects, in execution order. -/
abbrev Trace := List Event

/-- console.error emits one log line. -/
def consoleError (msg : String) : Trace := [Event.log msg]

/-- process.exit terminates with the given code. -/
def processExit (code : Nat) : Trace := [Event.exitProcess code]

/-- server.close stops the listener, then runs the completion callback. -/
def serverClose (cb : Unit → Trace) : Trace :=
  Event.closeServer :: cb ()

/-- Handler installed by process.on for unhandledRejection
(src/server.js lines 102-105). -/
def onUnhandledRejection (errMessage : String) : Trace :=
  consoleError ("❗ Unhandled Rejection: " ++ errMessage)
    ++ serverClose (fun _ => processExit 1)

/-- Handler installed by process.on for uncaughtException
(src/server.js lines 108-111). -/
def onUncaughtException (errMessage : String) : Trace :=
  consoleError ("❗ Uncaught Exception: " ++ errMessage)
    ++ serverClose (fun _ => processExit 1)

/-! ## Claims -/

/-- C4: every verbatim member of the allow-list is admitted by the
intended admission predicate. The claim is right about the intent, but the
shipped callback is a SyntaxError (cors_if_condition_unclosed), so the
running program exhibits no admission behaviour at all: code bug. -/
theorem member_is_allowed (o : String) (h : o ∈ allowedOrigins) :
    is_allowed (some o) = true := by
  simp only [is_allowed, isAllowedWith, List.contains, Bool.or_eq_true]
  exact Or.inl (List.elem_iff.mpr h)

theorem member_is_allowed_witness :
    "http://localhost:5173" ∈ allowedOrigins ∧
      is_allowed (some "http://localhost:5173") = true :=
  ⟨by decide, member_is_allowed "http://localhost:5173" (by decide)⟩

/-- C1: appending exactly one trailing slash to any allow-list entry still
yields an origin admitted by the intended predicate, because it strips one
trailing slash from the request origin before the second membership test.
The claim is right about the intent, but the shipped callback is a
SyntaxError (cors_if_condition_unclosed), so the program never evaluates
this condition: code bug. -/
theorem member_with_slash_is_allowed (e : String) (h : e ∈ allowedOrigins) :
    is_allowed (some (e ++ "/")) = true := by
  simp only [allowedOrigins, List.mem_cons, List.not_mem_nil, or_false] at h
  rcases h with rfl | rfl | rfl <;> rfl

theorem member_with_slash_is_allowed_witness :
    "https://maternal-survey.vercel.app" ∈ allowedOrigins ∧
      is_allowed (some ("https://maternal-survey.vercel.app" ++ "/")) = true :=
  ⟨by decide, member_with_slash_is_allowed "https://maternal-survey.vercel.app" (by decide)⟩

/-- C2: an origin that is not in the allow-list, and still is not after
one trailing slash is stripped, makes the intended corsOptions.origin
callback surface the error whose message is the string Not allowed by
CORS. The claim is right about the intent, but the shipped callback is a
SyntaxError (cors_if_condition_unclosed): the only error the real file
surfaces is the load-time SyntaxError, never this per-request rejection:
code bug. -/
theorem denied_origin_surfaces_cors_error (o : String)
    (h1 : o ∉ allowedOrigins) (h2 : stripOneTrailingSlash o ∉ allowedOrigins) :
    corsOptionsOrigin (some o) = Except.error "Not allowed by CORS" := by
  have hA : allowedOrigins.contains o = false :=
    Bool.eq_false_iff.mpr (fun hc => h1 (List.elem_iff.mp hc))
  have hB : allowedOrigins.contains (stripOneTrailingSlash o) = false :=
    Bool.eq_false_iff.mpr (fun hc => h2 (List.elem_iff.mp hc))
  have hF : is_allowed (some o) = false := by
    simp only [is_allowed, isAllowedWith, hA, hB, Bool.or_false]
  simp [corsOptionsOrigin, hF]

theorem denied_origin_surfaces_cors_error_witness :
    "https://evil.example" ∉ allowedOrigins ∧
      stripOneTrailingSlash "https://evil.example" ∉ allowedOrigins ∧
      corsOptionsOrigin (some "https://evil.example") =
        Except.error "Not allowed by CORS" :=
  ⟨by decide, by decide,
    denied_origin_surfaces_cors_error "https://evil.example" (by decide) (by decide)⟩

/-- C3: an absent origin is admitted unconditionally by the intended
predicate, whatever the allow-list holds; in particular for the fixed
list. The claim is right about the intent, but the shipped callback is a
SyntaxError (cors_if_condition_unclosed), so the program admits nothing
because it fails to load: code bug. -/
theorem absent_origin_always_allowed :
    (∀ origins : List String, isAllowedWith origins none = true) ∧
      is_allowed none = true :=
  ⟨fun _ => rfl, rfl⟩

/-- C5: GET /api/health always answers 200 with status ok and version
1.0.0, reports the database connected exactly when the readiness flag is 1
and disconnected otherwise, and echoes the request-time timestamp; in
particular a disconnected database still yields 200 and status ok. -/
theorem health_contract (readyState : Nat) (now : String) :
    (healthHandler readyState now).httpStatus = 200 ∧
      (healthHandler readyState now).status = "ok" ∧
      (healthHandler readyState now).version = "1.0.0" ∧
      ((healthHandler readyState now).database = "connected" ↔ readyState = 1) ∧
      ((healthHandler readyState now).database = "disconnected" ↔ readyState ≠ 1) ∧
      (healthHandler readyState now).timestamp = now := by
  refine ⟨rfl, rfl, rfl, ?_, ?_, rfl⟩ <;>
    by_cases h : readyState = 1 <;>
    simp +decide [healthHandler, h]

theorem health_contract_witness :
    (healthHandler 0 "2024-01-01T00:00:00.000Z").database = "disconnected" ∧
      (healthHandler 0 "2024-01-01T00:00:00.000Z").httpStatus = 200 ∧
      (healthHandler 0 "2024-01-01T00:00:00.000Z").status = "ok" :=
  ⟨((health_contract 0 "2024-01-01T00:00:00.000Z").2.2.2.2.1).mpr (by decide),
    (health_contract 0 "2024-01-01T00:00:00.000Z").1,
    (health_contract 0 "2024-01-01T00:00:00.000Z").2.1⟩

/-- C6: both fatal-fault handlers produce exactly the trace log of the
failure reason, then listener close, then process exit with code 1, and 1
is a non-zero exit status. -/
theorem fatal_fault_log_close_exit (errMessage : String) :
    onUnhandledRejection errMessage =
      [ Event.log ("❗ Unhandled Rejection: " ++ errMessage)
      , Event.closeServer, Event.exitProcess 1 ] ∧
      onUncaughtException errMessage =
        [ Event.log ("❗ Uncaught Exception: " ++ errMessage)
        , Event.closeServer, Event.exitProcess 1 ] ∧
      (∀ c, Event.exitProcess c ∈ onUnhandledRejection errMessage → c = 1) ∧
      (∀ c, Event.exitProcess c ∈ onUncaughtException errMessage → c = 1) ∧
      (1 : Nat) ≠ 0 := by
  refine ⟨rfl, rfl, ?_, ?_, by decide⟩ <;>
    · intro c hc
      simp [onUnhandledRejection, onUncaughtException, consoleError,
        serverClose, processExit] at hc
      exact hc

/-- C7: the two mount points of the analytics collaborator resolve
identically: for every request-path suffix, dispatch under the prefix
/api/v1/adv and dispatch under /api/v1/analytics find the same route
collaborator. -/
theorem adv_and_analytics_resolve_identically (s : String) :
    dispatch (String.append "/api/v1/adv" s) =
      dispatch (String.append "/api/v1/analytics" s) := by
  show dispatchData (String.append "/api/v1/adv" s).data
      = dispatchData (String.append "/api/v1/analytics" s).data
  have h1 : (String.append "/api/v1/adv" s).data
      = '/' :: 'a' :: 'p' :: 'i' :: '/' :: 'v' :: '1' :: '/'
          :: 'a' :: 'd' :: 'v' :: s.data := rfl
  have h2 : (String.append "/api/v1/analytics" s).data
      = '/' :: 'a' :: 'p' :: 'i' :: '/' :: 'v' :: '1' :: '/'
          :: 'a' :: 'n' :: 'a' :: 'l' :: 'y' :: 't' :: 'i' :: 'c' :: 's'
          :: s.data := rfl
  rw [h1, h2]
  generalize s.data = l
  rcases l with _ | ⟨c, cs⟩
  · rfl
  · by_cases hc : c = '/'
    · subst hc
      simp [dispatchData, mountsData, mounts, mountMatchesData, List.find?,
        List.isPrefixOf]
    · have hb : ('/' == c) = false := by
        simpa using fun h => hc h.symm
      simp [dispatchData, mountsData, mounts, mountMatchesData, List.find?,
        List.isPrefixOf, hb]

theorem adv_and_analytics_resolve_identically_witness :
    dispatch (String.append "/api/v1/adv" "/summary") =
      dispatch (String.append "/api/v1/analytics" "/summary") :=
  adv_and_analytics_resolve_identically "/summary"

/-- C8: GET /api/health is idempotent in its status and database fields:
two calls with the same readiness flag agree on both, whatever the two
timestamps are. -/
theorem health_idempotent (readyState : Nat) (t1 t2 : String) :
    (healthHandler readyState t1).status = (healthHandler readyState t2).status ∧
      (healthHandler readyState t1).database = (healthHandler readyState t2).database :=
  ⟨rfl, rfl⟩

/-- C9: GET / returns the same static payload for every request: status
200, the endpoints map with exactly the keys survey, auth, analytics and
advanced bound to their paths, and the documentation link. -/
theorem welcome_static (r1 r2 : Request) :
    welcomeHandler r1 = welcomeHandler r2 ∧
      welcomeHandler r1 =
        { httpStatus := 200
        , message := "Maternal Survey API"
        , version := "1.0.0"
        , endpoints :=
            [ ("survey", "/api/v1/responses")
            , ("auth", "/api/v1/auth")
            , ("analytics", "/api/v1/analytics")
            , ("advanced", "/api/v1/adv") ]
        , documentation := "https://github.com/your-repo/docs" } ∧
      (welcomeHandler r1).endpoints.map Prod.fst =
        ["survey", "auth", "analytics", "advanced"] :=
  ⟨rfl, rfl, rfl⟩

/-- C10: on the intended predicate, with the slash-bearing entry in the
allow-list, the production origin with two trailing slashes is admitted
(one slash stripped reaches the slash-bearing entry), while the localhost
origin with two trailing slashes is denied (no slash-bearing localhost
entry exists). The shipped callback is a SyntaxError
(cors_if_condition_unclosed), so the running program exhibits neither
behaviour: code bug. -/
theorem double_slash_asymmetry :
    is_allowed (some "https://maternal-survey.vercel.app//") = true ∧
      is_allowed (some "http://localhost:5173//") = false :=
  ⟨rfl, rfl⟩

end MaternalSurvey
